import Mathlib

set_option maxRecDepth 10000

/-!
Shallow embedding of `Barndoor_controller_v1.4.ino` (PD5DJ/Barndoor-Tracker).

Conventions of the embedding:
* C++ global variables become fields of `State`; globals are zero-initialized
  before `setup` runs, as in C++.
* Digital pin levels are booleans (`true` = HIGH).  `Stepper_Enable` HIGH means
  the motor driver is de-energized (source comment: LOW = ON, HIGH = OFF).
* `delay`/`delayMicroseconds` calls have no state effect and are dropped.
* Serial prints, `stepper.move` calls and `digitalRead(Button_Pin)` reads are
  recorded in an event log so that observable behaviour can be stated.
* The two `digitalRead(Button_Pin)` reads in `Button_Scan` are modelled by two
  input parameters `r1`, `r2` (levels; `false` = LOW = button held down), since
  the level can change between the two reads.
* The `while (digitalRead(HomeStart_Pin) == HIGH)` polling loop in `Homeing`
  is modelled with a fuel parameter `n`: the number of loop iterations until
  the home switch reads LOW.  A run of `Homeing` with any fuel models every
  execution in which the switch eventually asserts.
* IEEE double arithmetic in `setup` is modelled by exact rational arithmetic,
  with Arduino's `PI` constant as the rational value of its double literal;
  the C cast `double → int` truncates toward zero, which for the positive
  values here is `Int.floor`.  The computed values are far from the integer
  truncation boundaries, so the modelled truncation agrees with the double
  computation.
-/

namespace Barndoor

/-- `const double Thread_Pitch_mm = 1.25`. -/
def Thread_Pitch_mm : ℚ := 5/4

/-- `const int Hinge_Distance = 260`. -/
def Hinge_Distance : Int := 260

/-- `const int Threaded_UpperRod_Length = 100`. -/
def Threaded_UpperRod_Length : Int := 100

/-- Arduino's `PI` as an exact rational (the value of the double constant,
to 16 significant digits; the computed step intervals are ~0.08 away from
their truncation boundaries, so this precision is more than sufficient). -/
def PI_double : ℚ := 3141592653589793/1000000000000000

/-- The argument of `Timer1.initialize(100000)` in `setup`: the timer interrupt
period in microseconds. -/
def Timer1_period_us : Nat := 100000

/-- The common shape of the two `Rotation_Step_Interval` formulas in `setup`:
`(base / (Hinge_Distance / ((Thread_Pitch_mm * 1436) / (2*PI)))) * 1000000`,
where `base` is `0.3/16` for a 200-step motor and `0.15/16` for a 400-step
motor. -/
def Rotation_Step_Interval_calc (base : ℚ) : ℚ :=
  (base / ((Hinge_Distance : ℚ) / ((Thread_Pitch_mm * 1436) / (2 * PI_double)))) * 1000000

/-- Observable events: serial prints, stepper moves, button-pin reads. -/
inductive Event where
  | print (msg : String)
  | printInt (n : Int)
  | move (d : Int)
  | readButton
  deriving DecidableEq, Repr

/-- The program's global variables plus the output pin levels and the static
locals of `Timer_1`. -/
structure State where
  Run_Tracker : Bool
  Home_Tracker : Bool
  Button_Pressed : Bool
  Time : Int
  Button_Timer : Int
  Steps : Int
  Steps_mm : Int
  Step_Limit : Int
  Rotation_Step_Interval : Int
  Delay_1 : Int
  Delay_2 : Int
  /-- Level of the `Stepper_Enable` pin; HIGH (`true`) = driver OFF. -/
  StepperEnableHigh : Bool
  /-- Level of the `Stepper_Speed` pin; LOW = full step, HIGH = microstepping. -/
  StepperSpeedHigh : Bool
  /-- Level of the `Status_Led_Pin`. -/
  StatusLed : Bool
  /-- `static int Button_Timer_temp` in `Timer_1`. -/
  Button_Timer_temp : Int
  /-- `static int Time_temp` in `Timer_1`. -/
  Time_temp : Int
  /-- `static boolean Toggle_Flag` in `Timer_1`. -/
  Toggle_Flag : Bool
  deriving DecidableEq, Repr

/-- `void setup()`, parametrized by the `MOTOR_STEPS` preprocessor constant
(the shipped configuration is 400).  The optional hold-button-at-boot manual
jog (source lines 152-164) moves the motor but leaves every retained variable
and final pin level unchanged, so it is not modelled. -/
def setup (MOTOR_STEPS : Int) : State :=
  let s0 : State :=
    { Run_Tracker := false, Home_Tracker := false, Button_Pressed := false,
      Time := 0, Button_Timer := 0, Steps := 0, Steps_mm := 0, Step_Limit := 0,
      Rotation_Step_Interval := 0, Delay_1 := 0, Delay_2 := 0,
      StepperEnableHigh := true,   -- digitalWrite(Stepper_Enable, HIGH)
      StepperSpeedHigh := false,   -- digitalWrite(Stepper_Speed, LOW)
      StatusLed := false,
      Button_Timer_temp := 0, Time_temp := 0, Toggle_Flag := false }
  let s1 :=
    if MOTOR_STEPS = 200 then
      { s0 with Steps_mm := 2560,
                Rotation_Step_Interval :=
                  Int.floor (Rotation_Step_Interval_calc ((3/10)/16)) }
    else if MOTOR_STEPS = 400 then
      { s0 with Steps_mm := 5120,
                Rotation_Step_Interval :=
                  Int.floor (Rotation_Step_Interval_calc ((3/20)/16)) }
    else s0
  -- Prevents the DelayMicroseconds to overflow
  -- (the source's two-branch assignment to Delay_1/Delay_2 is written here
  -- with one conditional per field; the branches are the same)
  let s2 :=
    { s1 with
      Delay_1 := if s1.Rotation_Step_Interval > 16000 then 16000
                 else s1.Rotation_Step_Interval,
      Delay_2 := if s1.Rotation_Step_Interval > 16000 then s1.Rotation_Step_Interval - 16000
                 else 0 }
  { s2 with Step_Limit := s2.Steps_mm * (Threaded_UpperRod_Length - 10),
            Home_Tracker := true, Run_Tracker := false,
            Time := 0, Steps := 0, Button_Pressed := false }

/-- `void Button_Scan()`.  `r1`, `r2` are the levels returned by the two
`digitalRead(Button_Pin)` calls (`false` = LOW = pressed); the second read
happens only when `Button_Pressed` is true, because `&&` short-circuits. -/
def Button_Scan (s : State) (r1 r2 : Bool) : State × List Event :=
  -- if (digitalRead(Button_Pin) == LOW) { if (Button_Pressed == false) ... }
  let s1 :=
    if r1 = false ∧ s.Button_Pressed = false then
      { s with Button_Pressed := true, Button_Timer := 0 }
    else s
  let e2 : List Event := if s1.Button_Pressed then [Event.readButton] else []
  -- if (Button_Pressed == true && digitalRead(Button_Pin) == HIGH)
  let r :=
    if s1.Button_Pressed = true ∧ r2 = true then
      if s1.Button_Timer < 1 ∧ s1.Run_Tracker = false then
        ({ s1 with StepperEnableHigh := false, Run_Tracker := true,
                   Time := 0, Button_Pressed := false },
         [Event.print "Tracking Started"])
      else if s1.Button_Timer < 1 ∧ s1.Run_Tracker = true then
        ({ s1 with Run_Tracker := false, StepperEnableHigh := true,
                   Button_Pressed := false, StatusLed := false },
         [Event.print "Tracking Stopped", Event.print "Actual step position: ",
          Event.printInt s1.Steps])
      else
        ({ s1 with Button_Pressed := false }, [])
    else (s1, [])
  -- if (Button_Timer > 2)
  let s3 :=
    if r.1.Button_Timer > 2 then
      { r.1 with Run_Tracker := false, Home_Tracker := true,
                 Button_Pressed := false, Button_Timer := 0 }
    else r.1
  (s3, Event.readButton :: (e2 ++ r.2))

/-- `void Timer_1()` — the 100 ms timer interrupt handler. -/
def Timer_1 (s : State) : State :=
  let s1 :=
    if s.Button_Pressed = true then
      let t := if s.Button_Timer_temp > 9 then
                 { s with Button_Timer_temp := 0, Button_Timer := s.Button_Timer + 1 }
               else s
      { t with Button_Timer_temp := t.Button_Timer_temp + 1 }
    else s
  let s2 :=
    if s1.Run_Tracker = true then
      let t := if s1.Time_temp > 9 then
                 { s1 with Time_temp := 0, Time := s1.Time + 1 }
               else s1
      { t with Time_temp := t.Time_temp + 1 }
    else s1
  if s2.Run_Tracker = true then
    if s2.Toggle_Flag then { s2 with StatusLed := true, Toggle_Flag := false }
    else { s2 with StatusLed := false, Toggle_Flag := true }
  else s2

/-- `void Homeing()`.  `n` is the number of iterations of the uninterruptible
polling loop before `HomeStart_Pin` reads LOW (each iteration does
`stepper.move(1); delay(1)`). -/
def Homeing (s : State) (n : Nat) : State × List Event :=
  if s.Home_Tracker = true then
    -- speed LOW, print "Homing!", Run_Tracker = false, led HIGH, enable LOW
    let s1 := { s with StepperSpeedHigh := false, Run_Tracker := false,
                       StatusLed := true, StepperEnableHigh := false }
    -- polling loop, then: print, Steps = 0, Home_Tracker = false,
    -- enable HIGH, led LOW
    let s2 := { s1 with Steps := 0, Home_Tracker := false,
                        StepperEnableHigh := true, StatusLed := false }
    (s2, Event.print "Homing!" ::
           (List.replicate n (Event.move 1) ++ [Event.print "Starting point reached"]))
  else (s, [])

/-- `void Tracking()` — one invocation of the tracking pulse routine. -/
def Tracking (s : State) : State × List Event :=
  if s.Run_Tracker = true then
    -- digitalWrite(Stepper_Speed, HIGH); stepper.move(-1); Steps++;
    -- delayMicroseconds(Delay_1); delayMicroseconds(Delay_2);
    let s1 := { s with StepperSpeedHigh := true, Steps := s.Steps + 1 }
    -- if (Steps > Step_Limit)
    if s1.Steps > s1.Step_Limit then
      ({ s1 with Run_Tracker := false, StepperEnableHigh := true, StatusLed := false },
       [Event.move (-1), Event.print "Tracking Stopped",
        Event.print "Actual step position: ", Event.printInt s1.Steps])
    else (s1, [Event.move (-1)])
  else (s, [])

/-- The inputs consumed by one iteration of `loop()`: the two button reads of
`Button_Scan` and the homing fuel (iterations until the home switch asserts),
used only if `Homeing` actually runs. -/
structure LoopInput where
  r1 : Bool
  r2 : Bool
  homeFuel : Nat
  deriving Repr

/-- One iteration of `void loop()`: `Button_Scan(); Homeing(); Tracking();`. -/
def loopIter (s : State) (i : LoopInput) : State × List Event :=
  let a := Button_Scan s i.r1 i.r2
  let b := Homeing a.1 i.homeFuel
  let c := Tracking b.1
  (c.1, a.2 ++ (b.2 ++ c.2))

/-- One schedulable action: a whole main-loop iteration, or one firing of the
`Timer_1` interrupt (modelled at loop-iteration granularity; `Timer_1` writes
none of the variables read inside a single routine's decision except
`Button_Timer`, whose claims are stated at this granularity). -/
inductive Act where
  | iter (i : LoopInput)
  | tick
  deriving Repr

/-- Run a list of actions, accumulating the event log. -/
def runActs (s : State) : List Act → State × List Event
  | [] => (s, [])
  | Act.iter i :: rest =>
      let a := loopIter s i
      let b := runActs a.1 rest
      (b.1, a.2 ++ b.2)
  | Act.tick :: rest => runActs (Timer_1 s) rest

/-- Number of timer ticks in a trace. -/
def tickCount : List Act → Nat
  | [] => 0
  | Act.iter _ :: rest => tickCount rest
  | Act.tick :: rest => 1 + tickCount rest

/-- `n` consecutive firings of `Timer_1`. -/
def tickN (s : State) : Nat → State
  | 0 => s
  | n + 1 => Timer_1 (tickN s n)

/-- States reachable at main-loop iteration boundaries, from power-up with the
shipped configuration (`MOTOR_STEPS = 400`), closed under loop iterations with
arbitrary inputs and under timer interrupts. -/
inductive Reachable : State → Prop where
  | init : Reachable (setup 400)
  | step (s : State) (i : LoopInput) : Reachable s → Reachable (loopIter s i).1
  | tick (s : State) : Reachable s → Reachable (Timer_1 s)

/-- A tracking-active state at the travel limit (position 460800 steps),
used as a concrete input for the limit-stop theorem. -/
def limitState : State :=
  { setup 400 with Run_Tracker := true, Home_Tracker := false,
                   Steps := 460800, StepperEnableHigh := false,
                   StepperSpeedHigh := true }

/-- A tracking-active state as it appears at main-loop boundaries during an
uninterrupted tracking run started right after the power-on homing:
position `x`, motor energized, microstepping selected. -/
def trackingAt (x : Int) : State :=
  { setup 400 with Run_Tracker := true, Home_Tracker := false,
                   Steps := x, StepperEnableHigh := false,
                   StepperSpeedHigh := true }

/-- `trackingAt 0`: the tracking-active state right after tracking is started
from the home position. -/
def trackingAt0 : State :=
  { setup 400 with Run_Tracker := true, Home_Tracker := false,
                   StepperEnableHigh := false, StepperSpeedHigh := true }

/-- Loop input with both button reads HIGH (button not pressed). -/
def inHigh : LoopInput := ⟨true, true, 0⟩

/-- Loop input with both button reads LOW (button held down). -/
def inLow : LoopInput := ⟨false, false, 0⟩

/-- Power-on, then: one idle loop iteration (runs the automatic homing), one
iteration that latches a new button press, then 31 timer ticks (3.1 s) with
the button still held.  `Button_Timer` reaches 3 along this trace. -/
def holdPrefix : List Act :=
  [Act.iter inHigh, Act.iter inLow] ++ List.replicate 31 Act.tick

/-- `holdPrefix` continued, with the button held LOW at every later read:
the scan after the 31 ticks fires the home request (and the same iteration
runs `Homeing`); the next iteration re-latches the still-held button; after
30 more ticks the following scan fires the home request a second time —
all within one continuous physical hold. -/
def longHoldTrace : List Act :=
  holdPrefix ++ [Act.iter inLow, Act.iter inLow]
    ++ List.replicate 30 Act.tick ++ [Act.iter inLow]

/-- A stopped state (tracking off, motor de-energized) at position `x`, as
produced by the travel-limit stop. -/
def stoppedAt (x : Int) : State :=
  { setup 400 with Run_Tracker := false, Home_Tracker := false,
                   Steps := x, StepperEnableHigh := true,
                   StepperSpeedHigh := true }

/-- `stoppedAt 460801` with a new button press latched (the user taps the
button after the automatic travel-limit stop). -/
def pressedStopped : State :=
  { setup 400 with Run_Tracker := false, Home_Tracker := false,
                   Button_Pressed := true, Steps := 460801,
                   StepperEnableHigh := true, StepperSpeedHigh := true }

/-- A latched button press in the idle state (not tracking, not homing),
with `Button_Timer` still 0. -/
def pressedIdle : State :=
  { setup 400 with Button_Pressed := true, Home_Tracker := false }

/-- A latched button press that has been held past the hold threshold
(`Button_Timer = 3 > 2`). -/
def pressedHeld3 : State :=
  { setup 400 with Button_Pressed := true, Button_Timer := 3,
                   Home_Tracker := false }

/-- A state with a latched press and tracking active, all four counter
variables at their power-on value 0. -/
def pressedRunZero : State :=
  { setup 400 with Button_Pressed := true, Run_Tracker := true,
                   Home_Tracker := false }

/-! ## Value of the computed step interval -/

/-- The 400-step branch of `setup` computes 10301.07…µs, truncated to 10301. -/
theorem floor_calc_400 :
    Int.floor (Rotation_Step_Interval_calc (3/320)) = 10301 := by
  rw [Int.floor_eq_iff]
  norm_num [Rotation_Step_Interval_calc, PI_double, Thread_Pitch_mm, Hinge_Distance]

/-- The 200-step branch of `setup` computes 20602.15…µs, truncated to 20602. -/
theorem floor_calc_200 :
    Int.floor (Rotation_Step_Interval_calc (3/160)) = 20602 := by
  rw [Int.floor_eq_iff]
  norm_num [Rotation_Step_Interval_calc, PI_double, Thread_Pitch_mm, Hinge_Distance]

/-! ## Claim C3 — the two-part delay split -/

/-- Claim C3: for both supported motor resolutions, the startup delay split
satisfies `Delay_1 ≤ 16000` and `Delay_1 + Delay_2 = Rotation_Step_Interval`;
if the interval exceeds 16000µs then `Delay_1 = 16000` and
`Delay_2 = interval − 16000`, otherwise `Delay_1 = interval`, `Delay_2 = 0`. -/
theorem delay_split_sound (m : Int) (h : m = 200 ∨ m = 400) :
    (setup m).Delay_1 ≤ 16000 ∧
    (setup m).Delay_1 + (setup m).Delay_2 = (setup m).Rotation_Step_Interval ∧
    ((setup m).Rotation_Step_Interval > 16000 →
      (setup m).Delay_1 = 16000 ∧
      (setup m).Delay_2 = (setup m).Rotation_Step_Interval - 16000) ∧
    ((setup m).Rotation_Step_Interval ≤ 16000 →
      (setup m).Delay_1 = (setup m).Rotation_Step_Interval ∧
      (setup m).Delay_2 = 0) := by
  rcases h with h | h <;> subst h
  · norm_num [setup, floor_calc_200]
  · norm_num [setup, floor_calc_400]

/-- Witness for C3 at the shipped configuration `MOTOR_STEPS = 400`. -/
theorem delay_split_sound_witness :
    (setup 400).Delay_1 ≤ 16000 ∧
    (setup 400).Delay_1 + (setup 400).Delay_2 = (setup 400).Rotation_Step_Interval ∧
    ((setup 400).Rotation_Step_Interval > 16000 →
      (setup 400).Delay_1 = 16000 ∧
      (setup 400).Delay_2 = (setup 400).Rotation_Step_Interval - 16000) ∧
    ((setup 400).Rotation_Step_Interval ≤ 16000 →
      (setup 400).Delay_1 = (setup 400).Rotation_Step_Interval ∧
      (setup 400).Delay_2 = 0) :=
  delay_split_sound 400 (Or.inr rfl)

/-! ## Claim C4 — the startup scenario values -/

/-- Claim C4, counterexample: with the shipped configuration the computed
`Rotation_Step_Interval` is 10301µs, not ≈9770µs as claimed, and `Delay_1`
is therefore not 9770 either. -/
theorem startup_interval_not_9770 :
    (setup 400).Rotation_Step_Interval = 10301 ∧
    (setup 400).Rotation_Step_Interval ≠ 9770 ∧
    (setup 400).Delay_1 ≠ 9770 := by
  norm_num [setup, floor_calc_400]

/-- Claim C4 as amended: with `MOTOR_STEPS = 400`, `Thread_Pitch_mm = 1.25`,
`Hinge_Distance = 260`, `Threaded_UpperRod_Length = 100`, startup yields
`Steps_mm = 5120`, `Rotation_Step_Interval = 10301µs` with `Delay_1 = 10301`
and `Delay_2 = 0`, and `Step_Limit = 5120 × (100 − 10) = 460800` steps. -/
theorem startup_scenario_actual_values :
    (setup 400).Steps_mm = 5120 ∧
    (setup 400).Rotation_Step_Interval = 10301 ∧
    (setup 400).Delay_1 = 10301 ∧
    (setup 400).Delay_2 = 0 ∧
    (setup 400).Step_Limit = 5120 * (100 - 10) := by
  norm_num [setup, floor_calc_400, Threaded_UpperRod_Length]

/-! ## Claim C1 — the travel-limit stop happens in the same invocation -/

/-- Claim C1: any invocation of the tracking pulse routine in which `Steps`
becomes greater than `Step_Limit` clears the tracking flag, de-energizes the
motor driver (enable pin HIGH), and reports the stop with the final position;
`Steps` is the incremented value, preserved rather than reset.  Since the stop
happens inside the same invocation, tracking halts within one step interval of
exceeding the limit. -/
theorem tracking_limit_stop_same_invocation (s : State)
    (hrun : s.Run_Tracker = true) (hexc : s.Step_Limit < s.Steps + 1) :
    (Tracking s).1.Run_Tracker = false ∧
    (Tracking s).1.StepperEnableHigh = true ∧
    (Tracking s).1.Steps = s.Steps + 1 ∧
    (Tracking s).2 = [Event.move (-1), Event.print "Tracking Stopped",
      Event.print "Actual step position: ", Event.printInt (s.Steps + 1)] := by
  simp [Tracking, hrun, hexc]

/-- Witness for C1: a tracking state at the travel limit. -/
theorem tracking_limit_stop_witness :
    (Tracking limitState).1.Run_Tracker = false ∧
    (Tracking limitState).1.StepperEnableHigh = true ∧
    (Tracking limitState).1.Steps = 460801 ∧
    (Tracking limitState).2 = [Event.move (-1), Event.print "Tracking Stopped",
      Event.print "Actual step position: ", Event.printInt 460801] :=
  tracking_limit_stop_same_invocation limitState rfl (by decide)

/-! ## Claim C8 — homing completion -/

/-- Claim C8: whenever `Homeing` runs with the homing flag set and the limit
switch asserts after any finite number `n` of polling iterations, on
completion `Steps` is exactly 0, the motor is de-energized, the homing flag is
cleared, the tracking flag is cleared during the sequence, and the polling
loop reads no button input (the sequence is uninterruptible). -/
theorem homeing_completion (s : State) (n : Nat) (h : s.Home_Tracker = true) :
    (Homeing s n).1.Steps = 0 ∧
    (Homeing s n).1.StepperEnableHigh = true ∧
    (Homeing s n).1.Home_Tracker = false ∧
    (Homeing s n).1.Run_Tracker = false ∧
    Event.readButton ∉ (Homeing s n).2 := by
  simp [Homeing, h, List.mem_replicate]

/-- Witness for C8: the power-on state (homing flag set), switch asserting
after 5 polling steps. -/
theorem homeing_completion_witness :
    (Homeing (setup 400) 5).1.Steps = 0 ∧
    (Homeing (setup 400) 5).1.StepperEnableHigh = true ∧
    (Homeing (setup 400) 5).1.Home_Tracker = false ∧
    (Homeing (setup 400) 5).1.Run_Tracker = false ∧
    Event.readButton ∉ (Homeing (setup 400) 5).2 :=
  homeing_completion (setup 400) 5 rfl

/-! ## Claim C9 — step directions per mode -/

/-- Claim C9, counterexample: homing steps are issued with direction `+1`
(`stepper.move(1)`, line 310) while tracking steps are issued with direction
`−1` (`stepper.move(-1)`, line 331) — the two modes do not use the same
direction.  Concretely, a homing run contains a `move 1` and never a
`move (−1)`, and a tracking invocation contains a `move (−1)` and never a
`move 1`. -/
theorem homing_tracking_directions_differ :
    Event.move 1 ∈ (Homeing (setup 400) 1).2 ∧
    Event.move (-1) ∉ (Homeing (setup 400) 1).2 ∧
    Event.move (-1) ∈ (Tracking trackingAt0).2 ∧
    Event.move 1 ∉ (Tracking trackingAt0).2 := by decide

/-- Claim C9 as amended: the step direction is fixed per mode, but the two
modes use opposite directions — every step issued by the homing polling loop
has direction `+1`, and every step issued by the tracking routine has
direction `−1` (the reverse direction). -/
theorem fixed_direction_per_mode :
    (∀ (s : State) (n : Nat) (d : Int), Event.move d ∈ (Homeing s n).2 → d = 1) ∧
    (∀ (s : State) (d : Int), Event.move d ∈ (Tracking s).2 → d = -1) := by
  constructor
  · intro s n d hd
    by_cases h : s.Home_Tracker = true
    · simp [Homeing, h, List.mem_replicate] at hd
      exact hd.2
    · simp [Homeing, h] at hd
  · intro s d hd
    by_cases h : s.Run_Tracker = true
    · by_cases h2 : s.Step_Limit < s.Steps + 1
      · simp [Tracking, h, h2] at hd
        exact hd
      · simp [Tracking, h, h2] at hd
        exact hd
    · simp [Tracking, h] at hd

/-- Witness for C9's amended theorem at concrete runs of both modes. -/
theorem fixed_direction_per_mode_witness :
    (1 : Int) = 1 ∧ (-1 : Int) = -1 :=
  ⟨fixed_direction_per_mode.1 (setup 400) 1 1 (by decide),
   fixed_direction_per_mode.2 trackingAt0 (-1) (by decide)⟩

/-! ## Claim C7 — release classification -/

/-- Claim C7, counterexample: after boot, a press latched and held for 31
timer ticks reaches `Button_Timer = 3`; releasing it then (both reads HIGH)
is *not* consumed silently — besides clearing the press latch, the same
`Button_Scan` invocation runs the `Button_Timer > 2` branch, setting the
homing flag and resetting the timer. -/
theorem long_release_not_silent :
    (runActs (setup 400) holdPrefix).1.Button_Pressed = true ∧
    (runActs (setup 400) holdPrefix).1.Button_Timer = 3 ∧
    (runActs (setup 400) holdPrefix).1.Home_Tracker = false ∧
    (Button_Scan (runActs (setup 400) holdPrefix).1 true true).1.Home_Tracker = true ∧
    (Button_Scan (runActs (setup 400) holdPrefix).1 true true).1.Button_Timer = 0 := by
  decide

/-- Claim C7 as amended: on release of a latched press (second read HIGH),
classification depends only on `Button_Timer` and the tracking flag:
`Button_Timer < 1` and not tracking → exactly the start-tracking effects;
`Button_Timer < 1` and tracking → exactly the stop-tracking effects, with the
position retained and reported; `1 ≤ Button_Timer ≤ 2` → consumed silently,
the only state change being the cleared press latch; but `Button_Timer > 2` →
the same invocation also fires the home request (homing flag set, tracking
flag cleared, timer reset). -/
theorem release_classification (s : State) (r1 : Bool)
    (hp : s.Button_Pressed = true) :
    (s.Button_Timer < 1 → s.Run_Tracker = false →
      (Button_Scan s r1 true).1 =
        { s with StepperEnableHigh := false, Run_Tracker := true,
                 Time := 0, Button_Pressed := false } ∧
      (Button_Scan s r1 true).2 =
        [Event.readButton, Event.readButton, Event.print "Tracking Started"]) ∧
    (s.Button_Timer < 1 → s.Run_Tracker = true →
      (Button_Scan s r1 true).1 =
        { s with Run_Tracker := false, StepperEnableHigh := true,
                 Button_Pressed := false, StatusLed := false } ∧
      (Button_Scan s r1 true).2 =
        [Event.readButton, Event.readButton, Event.print "Tracking Stopped",
         Event.print "Actual step position: ", Event.printInt s.Steps]) ∧
    (1 ≤ s.Button_Timer → s.Button_Timer ≤ 2 →
      (Button_Scan s r1 true).1 = { s with Button_Pressed := false } ∧
      (Button_Scan s r1 true).2 = [Event.readButton, Event.readButton]) ∧
    (2 < s.Button_Timer →
      (Button_Scan s r1 true).1 =
        { s with Run_Tracker := false, Home_Tracker := true,
                 Button_Pressed := false, Button_Timer := 0 } ∧
      (Button_Scan s r1 true).2 = [Event.readButton, Event.readButton]) := by
  refine ⟨?_, ?_, ?_, ?_⟩
  · intro h1 h2
    have h3 : ¬ s.Button_Timer > 2 := by omega
    simp [Button_Scan, hp, h1, h2, h3]
  · intro h1 h2
    have h3 : ¬ s.Button_Timer > 2 := by omega
    simp [Button_Scan, hp, h1, h2, h3]
  · intro h1 h2
    have h3 : ¬ s.Button_Timer < 1 := by omega
    have h4 : ¬ s.Button_Timer > 2 := by omega
    simp [Button_Scan, hp, h3, h4]
  · intro h1
    have h3 : ¬ s.Button_Timer < 1 := by omega
    simp [Button_Scan, hp, h1, h3]

/-- Witness for C7's amended theorem: a fresh tap released in the idle state
starts tracking. -/
theorem release_classification_witness :
    (Button_Scan pressedIdle true true).1 =
      { pressedIdle with StepperEnableHigh := false, Run_Tracker := true,
                         Time := 0, Button_Pressed := false } ∧
    (Button_Scan pressedIdle true true).2 =
      [Event.readButton, Event.readButton, Event.print "Tracking Started"] :=
  (release_classification pressedIdle true rfl).1 (by decide) rfl

/-! ## Claim C5 — the tick source and the counter cadence -/

/-- Claim C5, counterexample: the periodic tick source is configured with
`Timer1.initialize(100000)`, i.e. a 100000µs = 100ms period, so a tick is a
decisecond, not a centisecond, and one `Button_Timer` unit (10 ticks) is
1000000µs = one second of hold, not one decisecond (100000µs). -/
theorem tick_period_not_centisecond :
    Timer1_period_us = 100000 ∧ Timer1_period_us ≠ 10000 ∧
    10 * Timer1_period_us ≠ 100000 := by decide

/-- One `Timer_1` firing, seen on the four counter fields, while a press is
latched and tracking is active. -/
theorem Timer_1_counters (s : State)
    (hp : s.Button_Pressed = true) (hr : s.Run_Tracker = true) :
    (Timer_1 s).Button_Pressed = true ∧ (Timer_1 s).Run_Tracker = true ∧
    (Timer_1 s).Button_Timer =
      (if s.Button_Timer_temp > 9 then s.Button_Timer + 1 else s.Button_Timer) ∧
    (Timer_1 s).Button_Timer_temp =
      (if s.Button_Timer_temp > 9 then 1 else s.Button_Timer_temp + 1) ∧
    (Timer_1 s).Time =
      (if s.Time_temp > 9 then s.Time + 1 else s.Time) ∧
    (Timer_1 s).Time_temp =
      (if s.Time_temp > 9 then 1 else s.Time_temp + 1) := by
  by_cases h1 : s.Button_Timer_temp > 9 <;> by_cases h2 : s.Time_temp > 9 <;>
    by_cases h3 : s.Toggle_Flag <;> simp [Timer_1, hp, hr, h1, h2, h3]

/-- Closed form of the counters after `n` consecutive ticks from a state with
a latched press, tracking active, and all four counters at 0: the sub-tick
counters cycle with period 10 and `Button_Timer`/`Time` equal `(n−1)/10`
(their first increment completes on the 11th tick). -/
theorem tickN_closed_form (s : State)
    (hp : s.Button_Pressed = true) (hr : s.Run_Tracker = true)
    (hbt : s.Button_Timer = 0) (htt : s.Button_Timer_temp = 0)
    (hti : s.Time = 0) (hte : s.Time_temp = 0) :
    ∀ n : Nat,
      (tickN s n).Button_Pressed = true ∧ (tickN s n).Run_Tracker = true ∧
      (tickN s n).Button_Timer = (((n - 1) / 10 : Nat) : Int) ∧
      (tickN s n).Button_Timer_temp =
        ((if n = 0 then 0 else (n - 1) % 10 + 1 : Nat) : Int) ∧
      (tickN s n).Time = (((n - 1) / 10 : Nat) : Int) ∧
      (tickN s n).Time_temp =
        ((if n = 0 then 0 else (n - 1) % 10 + 1 : Nat) : Int) := by
  intro n
  induction n with
  | zero => simpa [tickN] using ⟨hp, hr, hbt, htt, hti, hte⟩
  | succ k ih =>
    obtain ⟨ih1, ih2, ih3, ih4, ih5, ih6⟩ := ih
    obtain ⟨c1, c2, c3, c4, c5, c6⟩ := Timer_1_counters (tickN s k) ih1 ih2
    simp only [ih3, ih4, ih5, ih6] at c3 c4 c5 c6
    rw [tickN]
    refine ⟨c1, c2, ?_, ?_, ?_, ?_⟩
    · rw [c3]
      by_cases hk : k = 0 <;> simp [hk] <;> split_ifs with h <;>
        push_cast at h ⊢ <;> omega
    · rw [c4]
      by_cases hk : k = 0 <;> simp [hk] <;> split_ifs with h <;>
        push_cast at h ⊢ <;> omega
    · rw [c5]
      by_cases hk : k = 0 <;> simp [hk] <;> split_ifs with h <;>
        push_cast at h ⊢ <;> omega
    · rw [c6]
      by_cases hk : k = 0 <;> simp [hk] <;> split_ifs with h <;>
        push_cast at h ⊢ <;> omega

/-- Claim C5 as amended: the tick source fires every 100000µs = 100ms (one
decisecond per tick, not one centisecond), and while a press is latched
`Button_Timer` advances by one unit per 10 ticks in steady state (the first
unit completes on the 11th tick), so one unit corresponds to one *second* of
hold; `Time` advances on exactly the same cadence while tracking is active. -/
theorem timer_cadence (s : State) (n : Nat)
    (hp : s.Button_Pressed = true) (hr : s.Run_Tracker = true)
    (hbt : s.Button_Timer = 0) (htt : s.Button_Timer_temp = 0)
    (hti : s.Time = 0) (hte : s.Time_temp = 0) :
    Timer1_period_us = 100000 ∧
    (tickN s n).Button_Timer = (((n - 1) / 10 : Nat) : Int) ∧
    (tickN s n).Time = (((n - 1) / 10 : Nat) : Int) :=
  ⟨rfl, (tickN_closed_form s hp hr hbt htt hti hte n).2.2.1,
        (tickN_closed_form s hp hr hbt htt hti hte n).2.2.2.2.1⟩

/-- Witness for C5's amended theorem: after 11 ticks of a continuous hold
with tracking active, both counters read 1. -/
theorem timer_cadence_witness :
    Timer1_period_us = 100000 ∧
    (tickN pressedRunZero 11).Button_Timer = ((1 : Nat) : Int) ∧
    (tickN pressedRunZero 11).Time = ((1 : Nat) : Int) :=
  timer_cadence pressedRunZero 11 rfl rfl rfl rfl rfl rfl

/-! ## Claim C2 — the position invariant while tracking -/

/-- `Button_Scan` never writes `Steps` or `Step_Limit`. -/
theorem Button_Scan_preserves (s : State) (r1 r2 : Bool) :
    (Button_Scan s r1 r2).1.Steps = s.Steps ∧
    (Button_Scan s r1 r2).1.Step_Limit = s.Step_Limit := by
  simp only [Button_Scan]
  split_ifs <;> simp

/-- `Homeing` never writes `Step_Limit`, and either zeroes `Steps` or leaves
it unchanged. -/
theorem Homeing_preserves (s : State) (n : Nat) :
    (Homeing s n).1.Step_Limit = s.Step_Limit ∧
    ((Homeing s n).1.Steps = 0 ∨ (Homeing s n).1.Steps = s.Steps) := by
  by_cases h : s.Home_Tracker = true <;> simp [Homeing, h]

/-- `Timer_1` writes none of `Steps`, `Run_Tracker`, `Step_Limit`. -/
theorem Timer_1_preserves (s : State) :
    (Timer_1 s).Steps = s.Steps ∧ (Timer_1 s).Run_Tracker = s.Run_Tracker ∧
    (Timer_1 s).Step_Limit = s.Step_Limit := by
  simp only [Timer_1]
  split_ifs <;> simp

/-- Any invocation of `Tracking` that leaves the tracking flag set leaves
`Steps ≤ Step_Limit` (the limit check clears the flag otherwise). -/
theorem Tracking_run_le (s : State) :
    (Tracking s).1.Run_Tracker = true →
      (Tracking s).1.Steps ≤ (Tracking s).1.Step_Limit := by
  by_cases h : s.Run_Tracker = true
  · by_cases h2 : s.Step_Limit < s.Steps + 1 <;> simp [Tracking, h, h2] <;> omega
  · simp [Tracking, h]

/-- `Tracking` never decreases `Steps` and never writes `Step_Limit`. -/
theorem Tracking_mono (s : State) :
    s.Steps ≤ (Tracking s).1.Steps ∧ (Tracking s).1.Step_Limit = s.Step_Limit := by
  by_cases h : s.Run_Tracker = true
  · by_cases h2 : s.Step_Limit < s.Steps + 1 <;> simp [Tracking, h, h2] <;> omega
  · simp [Tracking, h]

/-- The inductive invariant at main-loop boundaries: `Steps` is non-negative,
and if the tracking flag is set then `Steps` is within the travel limit. -/
theorem reachable_steps_inv (s : State) (h : Reachable s) :
    0 ≤ s.Steps ∧ (s.Run_Tracker = true → s.Steps ≤ s.Step_Limit) := by
  induction h with
  | init =>
    refine ⟨by decide, fun hr => ?_⟩
    simp [setup] at hr
  | step t i ht ih =>
    obtain ⟨ih0, _⟩ := ih
    have hbs := Button_Scan_preserves t i.r1 i.r2
    have hhm := Homeing_preserves (Button_Scan t i.r1 i.r2).1 i.homeFuel
    have htr := Tracking_mono (Homeing (Button_Scan t i.r1 i.r2).1 i.homeFuel).1
    have hrl := Tracking_run_le (Homeing (Button_Scan t i.r1 i.r2).1 i.homeFuel).1
    simp only [loopIter]
    exact ⟨by rcases hhm.2 with h2 | h2 <;> omega, hrl⟩
  | tick t ht ih =>
    have hp := Timer_1_preserves t
    refine ⟨by omega, fun hr => ?_⟩
    rw [hp.2.1] at hr
    have := ih.2 hr
    omega

/-- Claim C2: in every state reachable at a main-loop iteration boundary,
while tracking is active `0 ≤ Steps ≤ Step_Limit`; and the tracking routine
only ever increments `Steps` (by exactly one per invocation while tracking is
active, and never decreases it). -/
theorem tracking_position_invariant (s : State) (h : Reachable s) :
    (s.Run_Tracker = true → 0 ≤ s.Steps ∧ s.Steps ≤ s.Step_Limit) ∧
    (∀ t : State, t.Run_Tracker = true → (Tracking t).1.Steps = t.Steps + 1) ∧
    (∀ t : State, t.Steps ≤ (Tracking t).1.Steps) := by
  refine ⟨fun hr => ⟨(reachable_steps_inv s h).1, (reachable_steps_inv s h).2 hr⟩,
    fun t ht => ?_, fun t => (Tracking_mono t).1⟩
  by_cases h2 : t.Step_Limit < t.Steps + 1 <;> simp [Tracking, ht, h2]

/-- Witness for C2 at the power-on state. -/
theorem tracking_position_invariant_witness :
    ((setup 400).Run_Tracker = true →
      0 ≤ (setup 400).Steps ∧ (setup 400).Steps ≤ (setup 400).Step_Limit) ∧
    (∀ t : State, t.Run_Tracker = true → (Tracking t).1.Steps = t.Steps + 1) ∧
    (∀ t : State, t.Steps ≤ (Tracking t).1.Steps) :=
  tracking_position_invariant (setup 400) Reachable.init

/-! ## Claim C10 — how far past the limit the position can get -/

/-- During an uninterrupted tracking run (button reads HIGH), each loop
iteration advances the boundary state `trackingAt x` to `trackingAt (x+1)`
as long as the limit is not exceeded. -/
theorem trackingAt_step (x : Int) (hx : x + 1 ≤ 460800) :
    (loopIter (trackingAt x) inHigh).1 = trackingAt (x + 1) := by
  have h2 : ¬ (460800 : Int) < x + 1 := by omega
  norm_num [loopIter, Button_Scan, Homeing, Tracking, trackingAt, inHigh, setup,
    Threaded_UpperRod_Length, h2]

/-- Boot sequence: automatic homing, then a tap (latch + release) starts
tracking; the third iteration already issues the first step. -/
theorem reachable_trackingAt1 : Reachable (trackingAt 1) := by
  have h3 := Reachable.step _ inHigh
    (Reachable.step _ inLow (Reachable.step _ inHigh Reachable.init))
  exact (by rfl :
    (loopIter (loopIter (loopIter (setup 400) inHigh).1 inLow).1 inHigh).1
      = trackingAt 1) ▸ h3

/-- Every boundary state of the uninterrupted tracking run up to the travel
limit is reachable. -/
theorem reachable_trackingAt (k : Nat) (hk : (k : Int) + 1 ≤ 460800) :
    Reachable (trackingAt ((k : Int) + 1)) := by
  induction k with
  | zero => simpa using reachable_trackingAt1
  | succ n ih =>
    have hn : (n : Int) + 1 ≤ 460800 := by push_cast at hk ⊢; omega
    have h := Reachable.step _ inHigh (ih hn)
    rw [trackingAt_step ((n : Int) + 1) (by push_cast at hk ⊢; omega)] at h
    have e : (((n + 1 : Nat)) : Int) + 1 = ((n : Int) + 1) + 1 := by push_cast; ring
    rw [e]
    exact h

/-- The iteration from `trackingAt 460800` performs the travel-limit stop. -/
theorem limit_stop_step :
    (loopIter (trackingAt 460800) inHigh).1 = stoppedAt 460801 := by
  norm_num [loopIter, Button_Scan, Homeing, Tracking, trackingAt, stoppedAt,
    inHigh, setup, Threaded_UpperRod_Length]

/-- Tapping the button after the limit stop latches a new press. -/
theorem latch_after_stop :
    (loopIter (stoppedAt 460801) inLow).1 = pressedStopped := by
  norm_num [loopIter, Button_Scan, Homeing, Tracking, stoppedAt, pressedStopped,
    inLow, setup, Threaded_UpperRod_Length]

/-- Releasing that tap restarts tracking from 460801; the very next pulse
raises `Steps` to 460802 and the limit check stops tracking again there. -/
theorem restart_overshoot :
    (loopIter pressedStopped inHigh).1 = stoppedAt 460802 := by
  norm_num [loopIter, Button_Scan, Homeing, Tracking, stoppedAt, pressedStopped,
    inHigh, setup, Threaded_UpperRod_Length]

/-- Claim C10, counterexample: the state `stoppedAt 460802` — position
`Step_Limit + 2` — is reachable (track to the limit, let the automatic stop
fire at 460801, tap the button to restart tracking, and let the next pulse
stop it again), and that final stop is a travel-limit stop reporting position
460802, not `Step_Limit + 1 = 460801`. -/
theorem position_exceeds_limit_plus_one :
    Reachable (stoppedAt 460802) ∧
    (stoppedAt 460802).Step_Limit = 460800 ∧
    (stoppedAt 460802).Steps = 460802 ∧
    ¬ (stoppedAt 460802).Steps ≤ (stoppedAt 460802).Step_Limit + 1 ∧
    Event.print "Tracking Stopped" ∈ (loopIter pressedStopped inHigh).2 ∧
    Event.printInt 460802 ∈ (loopIter pressedStopped inHigh).2 := by
  refine ⟨?_, by decide, by decide, by decide, by decide, by decide⟩
  have h1 : Reachable (trackingAt 460800) := by
    have := reachable_trackingAt 460799 (by norm_num)
    simpa using this
  have h2 := Reachable.step _ inHigh h1
  rw [limit_stop_step] at h2
  have h3 := Reachable.step _ inLow h2
  rw [latch_after_stop] at h3
  have h4 := Reachable.step _ inHigh h3
  rwa [restart_overshoot] at h4

/-- Claim C10 as amended: a `Tracking` invocation entered with the tracking
flag set and `Steps ≤ Step_Limit` (which the reachable-boundary invariant
guarantees whenever tracking was already active at the boundary) stops
exactly when entered at `Steps = Step_Limit`, and a stop leaves `Steps`
exactly `Step_Limit + 1`; in particular `Steps ≤ Step_Limit + 1` after the
invocation.  Restarting tracking after an automatic stop, however, re-enters
with `Steps = Step_Limit + 1`, so globally positions up to `Step_Limit + 2`
and beyond are reachable. -/
theorem limit_stop_overshoot_one (s : State)
    (hrun : s.Run_Tracker = true) (hle : s.Steps ≤ s.Step_Limit) :
    ((Tracking s).1.Run_Tracker = false ↔ s.Steps = s.Step_Limit) ∧
    ((Tracking s).1.Run_Tracker = false → (Tracking s).1.Steps = s.Step_Limit + 1) ∧
    (Tracking s).1.Steps ≤ s.Step_Limit + 1 := by
  by_cases h2 : s.Step_Limit < s.Steps + 1 <;>
    simp [Tracking, hrun, h2] <;> omega

/-- Witness for C10's amended theorem, at the boundary state sitting exactly
on the travel limit. -/
theorem limit_stop_overshoot_one_witness :
    ((Tracking (trackingAt 460800)).1.Run_Tracker = false ↔
      (trackingAt 460800).Steps = (trackingAt 460800).Step_Limit) ∧
    ((Tracking (trackingAt 460800)).1.Run_Tracker = false →
      (Tracking (trackingAt 460800)).1.Steps = (trackingAt 460800).Step_Limit + 1) ∧
    (Tracking (trackingAt 460800)).1.Steps ≤ (trackingAt 460800).Step_Limit + 1 :=
  limit_stop_overshoot_one (trackingAt 460800) rfl (by decide)

/-! ## Claim C6 — the home request on a long hold -/

/-- Claim C6, counterexample: the power-on iteration runs homing exactly once
(one `"Homing!"` line); along `longHoldTrace` — in which the button reads LOW
at every read after boot, i.e. one single continuous hold — homing runs three
times in total.  So the home-request event fired twice during one continuous
hold: after the first firing resets the bookkeeping, the still-held button is
re-latched as a new press and, 3 more seconds later, fires again. -/
theorem home_request_refires_on_long_hold :
    ((runActs (setup 400) [Act.iter inHigh]).2.count (Event.print "Homing!") = 1) ∧
    ((runActs (setup 400) longHoldTrace).2.count (Event.print "Homing!") = 3) := by
  decide

/-- While a press is latched and `Button_Timer` has passed the threshold,
`Button_Scan` fires the home request regardless of the levels returned by the
two button reads (so it does not wait for release): it sets the homing flag,
clears the tracking flag and the press latch, and resets the timer. -/
theorem scan_fire (s : State) (r1 r2 : Bool)
    (hp : s.Button_Pressed = true) (hbt : s.Button_Timer > 2) :
    (Button_Scan s r1 r2).1.Home_Tracker = true ∧
    (Button_Scan s r1 r2).1.Run_Tracker = false ∧
    (Button_Scan s r1 r2).1.Button_Pressed = false ∧
    (Button_Scan s r1 r2).1.Button_Timer = 0 ∧
    (Button_Scan s r1 r2).1.Button_Timer_temp = s.Button_Timer_temp := by
  have h1 : ¬ s.Button_Timer < 1 := by omega
  simp only [Button_Scan]
  split_ifs <;> simp_all

/-- The full loop iteration around a firing scan: `Homeing` consumes the
homing flag in the same iteration, so the boundary state has the flag clear,
the timer at 0 and the sub-tick counter unchanged. -/
theorem fire_iter (s : State) (i : LoopInput)
    (hp : s.Button_Pressed = true) (hbt : s.Button_Timer > 2) :
    (loopIter s i).1.Home_Tracker = false ∧
    (loopIter s i).1.Button_Timer = 0 ∧
    (loopIter s i).1.Button_Timer_temp = s.Button_Timer_temp ∧
    (loopIter s i).1.Run_Tracker = false := by
  obtain ⟨f1, f2, f3, f4, f5⟩ := scan_fire s i.r1 i.r2 hp hbt
  simp [loopIter, Homeing, Tracking, f1, f2, f3, f4, f5]

/-- `Homeing` is a no-op when the homing flag is clear. -/
theorem Homeing_skip (s : State) (n : Nat) (h : s.Home_Tracker = false) :
    Homeing s n = (s, []) := by
  simp [Homeing, h]

/-- `Tracking` touches neither the homing flag nor the button counters, and
never prints the homing banner. -/
theorem Tracking_aux_fields (s : State) :
    (Tracking s).1.Home_Tracker = s.Home_Tracker ∧
    (Tracking s).1.Button_Timer = s.Button_Timer ∧
    (Tracking s).1.Button_Timer_temp = s.Button_Timer_temp ∧
    Event.print "Homing!" ∉ (Tracking s).2 := by
  by_cases h : s.Run_Tracker = true
  · by_cases h2 : s.Step_Limit < s.Steps + 1 <;> simp [Tracking, h, h2]
  · simp [Tracking, h]

/-- A scan entered with `Button_Timer ≤ 2` cannot fire the home request: the
homing flag is unchanged, the timer is unchanged or reset by a fresh latch,
the sub-tick counter is untouched, and no homing banner is printed. -/
theorem Button_Scan_no_fire (t : State) (r1 r2 : Bool)
    (hbt : t.Button_Timer ≤ 2) :
    (Button_Scan t r1 r2).1.Home_Tracker = t.Home_Tracker ∧
    ((Button_Scan t r1 r2).1.Button_Timer = t.Button_Timer ∨
      (Button_Scan t r1 r2).1.Button_Timer = 0) ∧
    (Button_Scan t r1 r2).1.Button_Timer_temp = t.Button_Timer_temp ∧
    Event.print "Homing!" ∉ (Button_Scan t r1 r2).2 := by
  simp only [Button_Scan]
  split_ifs <;> simp_all <;> omega

/-- One timer tick advances the pair (`Button_Timer`, `Button_Timer_temp`) by
at most one sub-tick and never touches the homing flag. -/
theorem Timer_1_budget (s : State) :
    (Timer_1 s).Home_Tracker = s.Home_Tracker ∧
    (((Timer_1 s).Button_Timer = s.Button_Timer ∧
      (Timer_1 s).Button_Timer_temp = s.Button_Timer_temp) ∨
     (s.Button_Timer_temp > 9 ∧ (Timer_1 s).Button_Timer = s.Button_Timer + 1 ∧
      (Timer_1 s).Button_Timer_temp = 1) ∨
     (¬ s.Button_Timer_temp > 9 ∧ (Timer_1 s).Button_Timer = s.Button_Timer ∧
      (Timer_1 s).Button_Timer_temp = s.Button_Timer_temp + 1)) := by
  simp only [Timer_1]
  split_ifs <;> simp_all

/-- From a state with the homing flag clear and the button bookkeeping low
(timer 0..2, healthy sub-tick counter), no trace containing few enough timer
ticks can make homing run: the timer cannot climb past the threshold. -/
theorem no_homing_run (trace : List Act) :
    ∀ t : State, t.Home_Tracker = false →
      0 ≤ t.Button_Timer → 0 ≤ t.Button_Timer_temp →
      t.Button_Timer_temp ≤ 10 →
      (t.Button_Timer = 0 ∨ 1 ≤ t.Button_Timer_temp) →
      t.Button_Timer * 10 + t.Button_Timer_temp + (tickCount trace : Int) ≤ 30 →
      (runActs t trace).2.count (Event.print "Homing!") = 0 := by
  induction trace with
  | nil => intro t _ _ _ _ _ _; simp [runActs]
  | cons a rest ih =>
    intro t h0 hb0 ht0 ht10 hnz hbud
    cases a with
    | tick =>
      obtain ⟨g1, g2⟩ := Timer_1_budget t
      simp only [runActs]
      simp only [tickCount] at hbud
      refine ih (Timer_1 t) (by rw [g1]; exact h0) ?_ ?_ ?_ ?_ ?_ <;>
        rcases g2 with ⟨e1, e2⟩ | ⟨e1, e2, e3⟩ | ⟨e1, e2, e3⟩ <;>
          push_cast at hbud ⊢ <;> omega
    | iter i =>
      have hbt2 : t.Button_Timer ≤ 2 := by
        rcases hnz with h | h <;> push_cast at hbud <;> omega
      obtain ⟨s1, s2, s3, s4⟩ := Button_Scan_no_fire t i.r1 i.r2 hbt2
      have hsh : (Button_Scan t i.r1 i.r2).1.Home_Tracker = false := by
        rw [s1]; exact h0
      obtain ⟨t1, t2, t3, t4⟩ := Tracking_aux_fields (Button_Scan t i.r1 i.r2).1
      simp only [runActs, loopIter, Homeing_skip _ i.homeFuel hsh]
      rw [List.count_append, List.count_append, List.count_append]
      rw [List.count_eq_zero.mpr s4, List.count_eq_zero.mpr t4]
      simp only [List.count_nil]
      have hend := ih (Tracking (Button_Scan t i.r1 i.r2).1).1
        (by rw [t1]; exact hsh)
        (by rw [t2]; rcases s2 with e | e <;> omega)
        (by rw [t3, s3]; exact ht0)
        (by rw [t3, s3]; exact ht10)
        (by rw [t2, t3, s3]; rcases s2 with e | e <;> [rcases hnz with h | h; skip] <;> simp_all)
        (by rw [t2, t3, s3]; simp only [tickCount] at hbud; rcases s2 with e | e <;> omega)
      omega

/-- Claim C6 as amended: once a continuously-held press drives `Button_Timer`
past 2, the very next `Button_Scan` fires the home request without waiting
for release (the firing does not depend on the button reads), clearing the
tracking flag, setting the homing flag, clearing the press latch and
resetting the timer; and because the bookkeeping is reset, no further home
request can fire during the following 20 timer ticks (2 s — in particular not
if the button is merely held another 500 ms), however the loop iterations and
ticks interleave.  (A hold long enough to accumulate past the threshold
*again* does re-fire — see the counterexample.) -/
theorem home_request_immediate_once (s : State) (i : LoopInput) (trace : List Act)
    (hp : s.Button_Pressed = true) (hbt : s.Button_Timer > 2)
    (h0 : 0 ≤ s.Button_Timer_temp) (h10 : s.Button_Timer_temp ≤ 10)
    (hticks : tickCount trace ≤ 20) :
    (∀ r1 r2 : Bool,
      (Button_Scan s r1 r2).1.Home_Tracker = true ∧
      (Button_Scan s r1 r2).1.Run_Tracker = false ∧
      (Button_Scan s r1 r2).1.Button_Pressed = false ∧
      (Button_Scan s r1 r2).1.Button_Timer = 0) ∧
    (runActs (loopIter s i).1 trace).2.count (Event.print "Homing!") = 0 := by
  refine ⟨fun r1 r2 => ?_, ?_⟩
  · obtain ⟨f1, f2, f3, f4, _⟩ := scan_fire s r1 r2 hp hbt
    exact ⟨f1, f2, f3, f4⟩
  · obtain ⟨u1, u2, u3, u4⟩ := fire_iter s i hp hbt
    refine no_homing_run trace _ u1 (by omega) (by omega) (by omega)
      (Or.inl u2) ?_
    rw [u2, u3]
    have : (tickCount trace : Int) ≤ 20 := by exact_mod_cast hticks
    omega

/-- Witness for C6's amended theorem: a held press with `Button_Timer = 3`,
followed by 5 ticks (500 ms). -/
theorem home_request_immediate_once_witness :
    (∀ r1 r2 : Bool,
      (Button_Scan pressedHeld3 r1 r2).1.Home_Tracker = true ∧
      (Button_Scan pressedHeld3 r1 r2).1.Run_Tracker = false ∧
      (Button_Scan pressedHeld3 r1 r2).1.Button_Pressed = false ∧
      (Button_Scan pressedHeld3 r1 r2).1.Button_Timer = 0) ∧
    (runActs (loopIter pressedHeld3 inLow).1
      (List.replicate 5 Act.tick)).2.count (Event.print "Homing!") = 0 :=
  home_request_immediate_once pressedHeld3 inLow (List.replicate 5 Act.tick)
    rfl (by decide) (by decide) (by decide) (by decide)

end Barndoor
